import Mathlib

/-!
Shallow embedding of the voice-session demo application
(speech-recognition hook, media-recorder hook, conversation store)
and proofs of its specified properties.

Text is modelled as `List Char` so that the JavaScript string operations
(`toLowerCase`, `includes`, `replace(/stop/gi, "")`, `trim`) have direct,
executable counterparts.
-/

/-- Text values of the embedded program: a string as its list of characters. -/
abbrev Str := List Char

/-- Conversion from a Lean string literal to the embedded text type. -/
def str (s : String) : Str := s.data

/-- Pointwise lower-casing, mirroring JavaScript `String.prototype.toLowerCase`
on the ASCII transcripts handled by the app. -/
def toLowerStr (l : Str) : Str := l.map Char.toLower

/-- ASCII whitespace test used by the embedded `trim`. -/
def jsWhitespace (c : Char) : Bool :=
  c == ' ' || c == '\t' || c == '\n' || c == '\r'

/-- Embedded `String.prototype.trim`: drop leading and trailing whitespace. -/
def jsTrim (l : Str) : Str :=
  ((l.dropWhile jsWhitespace).reverse.dropWhile jsWhitespace).reverse

/-- Embedded `String.prototype.includes`: `containsSub needle hay` is true
iff `needle` occurs as a contiguous substring of `hay`. -/
def containsSub (needle : Str) : Str → Bool
  | [] => needle.isEmpty
  | c :: rest => List.isPrefixOf needle (c :: rest) || containsSub needle rest

/-- Embedded `replace(/stop/gi, "")`: a single left-to-right scan removing
every (non-overlapping) case-insensitive occurrence of `"stop"`, exactly as
the JavaScript global regex replace does. -/
def stripStop : Str → Str
  | c1 :: c2 :: c3 :: c4 :: rest =>
    if c1.toLower == 's' && c2.toLower == 't' && c3.toLower == 'o' && c4.toLower == 'p' then
      stripStop rest
    else
      c1 :: stripStop (c2 :: c3 :: c4 :: rest)
  | l => l

example : stripStop (str "Hello there stop") = str "Hello there " := by decide
example : jsTrim (stripStop (str "Hello there stop")) = str "Hello there" := by decide
example : containsSub (str "stop") (toLowerStr (str "Hello there STOP")) = true := by decide
example : containsSub (str "stop") (toLowerStr (str "Hello there")) = false := by decide

/-! ## Speech recognizer (hook with continuous mode, `recognition.on*` handlers)

State of the speech-recognition hook: the React state variables
(`transcript`, `interimTranscript`, `finalTranscript`, `isListening`,
`error`), the mutable refs (`continuousModeRef`, `isManualStopRef`,
`timeoutRef` as an optional deadline, the pending auto-restart timeout),
and counters for the imperative requests issued to the browser session
(`recognition.stop()` / `recognition.start()` calls), which let the
theorems speak about how many stop/start requests a scenario issues. -/

structure RecState where
  transcript : Str
  interimTranscript : Str
  finalTranscript : Str
  isListening : Bool
  error : Option String
  continuousMode : Bool
  isManualStop : Bool
  silenceTimer : Option Nat
  restartScheduled : Bool
  stopRequests : Nat
  startRequests : Nat
deriving DecidableEq

/-- One entry of `event.results[i]`: the recognized text of the top
alternative together with its `isFinal` flag. -/
structure Segment where
  isFinal : Bool
  transcript : Str
deriving DecidableEq

/-- The `newFinalTranscript` accumulator of `recognition.onresult`:
concatenation of the segments marked final, in delivery order. -/
def newFinalOf (segs : List Segment) : Str :=
  ((segs.filter fun r => r.isFinal).map fun r => r.transcript).flatten

/-- The `newInterimTranscript` accumulator of `recognition.onresult`:
concatenation of the segments not marked final, in delivery order. -/
def newInterimOf (segs : List Segment) : Str :=
  ((segs.filter fun r => !r.isFinal).map fun r => r.transcript).flatten

/-- The 2000 ms silence timeout armed by `recognition.onresult`. -/
def silenceTimeoutMs : Nat := 2000

/-- The guard of the stop-command branch of `recognition.onresult`:
the accumulated text (committed final + new final + new interim),
lower-cased, contains `"stop"`, and continuous mode is enabled. -/
def stopGuard (s : RecState) (segs : List Segment) : Bool :=
  containsSub (str "stop")
      (toLowerStr (s.finalTranscript ++ newFinalOf segs ++ newInterimOf segs))
    && s.continuousMode

/-- The `recognition.onresult` handler. `now` is the current time in ms,
used only to arm the silence timer; `segs` are the result segments from
`event.resultIndex` onwards, in index order. In the stop-command branch the
handler commits the cleaned transcript (all case-insensitive `"stop"`
occurrences removed, then trimmed), disables continuous mode, requests the
session to stop, and returns early (so interim/combined transcripts and the
silence timer are left untouched). Otherwise it publishes the new interim
text, appends the new final text, recomputes the combined transcript, and —
only in continuous mode — cancels and re-arms the silence timer. -/
def onresult (s : RecState) (now : Nat) (segs : List Segment) : RecState :=
  let newFinal := newFinalOf segs
  let newInterim := newInterimOf segs
  if stopGuard s segs then
    { s with
        finalTranscript := jsTrim (stripStop (s.finalTranscript ++ newFinal ++ newInterim)),
        continuousMode := false,
        stopRequests := s.stopRequests + 1 }
  else
    let s1 := { s with
        interimTranscript := newInterim,
        finalTranscript := s.finalTranscript ++ newFinal,
        transcript := s.finalTranscript ++ newFinal ++ newInterim }
    if s.continuousMode then
      { s1 with silenceTimer := some (now + silenceTimeoutMs) }
    else s1

/-- Firing of the silence timeout armed by `recognition.onresult`: if a
timeout is pending it is consumed, and if the hook is still listening the
callback issues one `recognition.stop()` request. -/
def silenceFire (s : RecState) : RecState :=
  match s.silenceTimer with
  | none => s
  | some _ =>
    if s.isListening then
      { s with silenceTimer := none, stopRequests := s.stopRequests + 1 }
    else
      { s with silenceTimer := none }

/-- The messages of the `switch` in `recognition.onerror`. -/
def errorMessage (kind : String) : String :=
  if kind = "not-allowed" then
    "Microphone access denied. Please allow microphone permissions and try again."
  else if kind = "no-speech" then
    "No speech detected. Please speak clearly into your microphone."
  else if kind = "audio-capture" then
    "Audio capture failed. Please check your microphone connection."
  else if kind = "network" then
    "Network error. Please check your internet connection."
  else if kind = "service-not-allowed" then
    "Speech recognition service not allowed."
  else
    "Speech recognition error: " ++ kind

/-- The five specific user-facing recognition error messages. -/
def fixedErrorMessages : List String :=
  ["Microphone access denied. Please allow microphone permissions and try again.",
   "No speech detected. Please speak clearly into your microphone.",
   "Audio capture failed. Please check your microphone connection.",
   "Network error. Please check your internet connection.",
   "Speech recognition service not allowed."]

/-- The `recognition.onerror` handler: always clears `isListening`; on an
`"aborted"` error it returns early (no error surfaced, continuous mode kept);
on any other error it disables continuous mode and sets the error message
selected by the `switch`. -/
def onerror (s : RecState) (kind : String) : RecState :=
  let s1 := { s with isListening := false }
  if kind = "aborted" then s1
  else { s1 with continuousMode := false, error := some (errorMessage kind) }

/-- The delay of the auto-restart scheduled by `recognition.onend`. -/
def restartDelayMs : Nat := 1000

/-- The `recognition.onend` handler: clears `isListening` and the interim
transcript, cancels the silence timer, schedules the delayed auto-restart
exactly when continuous mode is still enabled and the stop was not manual,
and resets the manual-stop flag. -/
def onend (s : RecState) : RecState :=
  { s with
      isListening := false,
      interimTranscript := [],
      silenceTimer := none,
      restartScheduled := s.continuousMode && !s.isManualStop,
      isManualStop := false }

/-- Firing of the restart timeout scheduled by `recognition.onend`: the
callback re-checks that the hook is not listening and continuous mode is
still on, then clears the accumulated transcripts and calls
`recognition.start()` inside a `try`; `startThrows` says whether that call
throws, in which case the `catch` only disables continuous mode (no error
is surfaced). -/
def restartFire (s : RecState) (startThrows : Bool) : RecState :=
  let s0 := { s with restartScheduled := false }
  if !s.isListening && s.continuousMode then
    let s1 := { s0 with finalTranscript := [], transcript := [] }
    if startThrows then { s1 with continuousMode := false }
    else { s1 with startRequests := s1.startRequests + 1 }
  else s0

/-- The `stopListening` callback: records a manual stop, disables continuous
mode, requests the session to stop when listening, and cancels the silence
timer. -/
def stopListening (s : RecState) : RecState :=
  let s1 := { s with isManualStop := true, continuousMode := false }
  let s2 := if s.isListening then { s1 with stopRequests := s1.stopRequests + 1 } else s1
  { s2 with silenceTimer := none }

/-- Processing a whole sequence of `onresult` events, each tagged with its
arrival time, in delivery order. -/
def processEvents (s : RecState) : List (Nat × List Segment) → RecState
  | [] => s
  | (t, segs) :: rest => processEvents (onresult s t segs) rest

/-- Concatenation, in delivery order, of all segments marked final across a
sequence of result events. -/
def finalsOf (evs : List (Nat × List Segment)) : Str :=
  (evs.map fun e => newFinalOf e.2).flatten

/-- Decides whether the stop-command branch of `onresult` stays un-taken
throughout the processing of an event sequence. -/
def noStopFires (s : RecState) : List (Nat × List Segment) → Bool
  | [] => true
  | (t, segs) :: rest => !stopGuard s segs && noStopFires (onresult s t segs) rest

/-- A fresh listening-pass state, as right after `startListening`. -/
def freshPass (continuous : Bool) : RecState :=
  { transcript := [], interimTranscript := [], finalTranscript := [],
    isListening := true, error := none, continuousMode := continuous,
    isManualStop := false, silenceTimer := none, restartScheduled := false,
    stopRequests := 0, startRequests := 0 }

example :
    (onresult (freshPass true) 0 [⟨true, str "Hello there stop"⟩]).finalTranscript
      = str "Hello there" := by decide
example :
    (processEvents (freshPass false)
        [(0, [⟨false, str "he"⟩]), (1, [⟨true, str "hello "⟩, ⟨false, str "wor"⟩]),
         (2, [⟨true, str "world"⟩])]).finalTranscript
      = str "hello world" := by decide

/-! ## Media recorder (`useMediaRecorder` hook)

State of the media-recorder hook: the React state (`isRecording`,
`recordedBlob`, `error`), the chunk accumulator ref (`chunksRef`), whether a
`MediaRecorder` instance exists (`mediaRecorderRef.current` non-null),
whether the capture tracks have been stopped, whether the duration interval
is running, and a counter of how many times a finalized blob was built.
A binary data fragment is its byte list; the finalized blob is kept as the
ordered list of its parts. The asynchronous `onstop` event of the browser
recorder is modelled as delivered at the stop request, matching the
single-threaded callback model of the app. -/

/-- A binary data fragment (`event.data`): its bytes; `size` is its length. -/
abbrev Bytes := List Nat

structure RecorderState where
  isRecording : Bool
  recordedBlob : Option (List Bytes)
  error : Option String
  chunks : List Bytes
  hasRecorder : Bool
  tracksStopped : Bool
  durationTimerActive : Bool
  blobBuilds : Nat
deriving DecidableEq

/-- The `startRecording` callback, collapsed with the synchronous `onstart`
it triggers: a no-op when already recording; otherwise it creates a recorder,
resets the chunk list, starts recording, clears the error and starts the
duration timer. -/
def startRecording (s : RecorderState) : RecorderState :=
  if s.isRecording then s
  else
    { s with
        hasRecorder := true, chunks := [], isRecording := true,
        error := none, durationTimerActive := true }

/-- The `mediaRecorder.ondataavailable` handler: append the fragment to the
chunk list exactly when its size is strictly positive. -/
def ondataavailable (s : RecorderState) (data : Bytes) : RecorderState :=
  if 0 < data.length then { s with chunks := s.chunks ++ [data] } else s

/-- The `mediaRecorder.onstop` handler: build the finalized blob from the
accumulated chunks, clear `isRecording`, and stop the duration timer. -/
def onstop (s : RecorderState) : RecorderState :=
  { s with
      recordedBlob := some s.chunks, isRecording := false,
      durationTimerActive := false, blobBuilds := s.blobBuilds + 1 }

/-- The `stopRecording` callback: guarded by a recorder existing and
`isRecording`; it stops the recorder (whose `onstop` finalizes the blob) and
stops all capture tracks. Outside the guard it does nothing. -/
def stopRecording (s : RecorderState) : RecorderState :=
  if s.hasRecorder && s.isRecording then
    { onstop s with tracksStopped := true }
  else s

/-- The error message set by `downloadRecording` when no blob exists. -/
def noRecordingMsg : String := "No recording available to download"

/-- The `downloadRecording` callback: with a finalized blob it produces a
download of that blob and changes no state; without one it produces no file
and sets the no-recording error. The produced file is returned as the second
component. -/
def downloadRecording (s : RecorderState) : RecorderState × Option (List Bytes) :=
  match s.recordedBlob with
  | some b => (s, some b)
  | none => ({ s with error := some noRecordingMsg }, none)

/-- Delivery of a whole sequence of `ondataavailable` events in emission
order. -/
def processData (s : RecorderState) (evs : List Bytes) : RecorderState :=
  evs.foldl ondataavailable s

/-- An idle recorder state before any recording. -/
def idleRecorder : RecorderState :=
  { isRecording := false, recordedBlob := none, error := none, chunks := [],
    hasRecorder := false, tracksStopped := false, durationTimerActive := false,
    blobBuilds := 0 }

/-! ## Conversation store (`ConversationArea` and `Index.handleRecordingStop`) -/

/-- The role of a conversation message (`type: 'user' | 'ai'`). -/
inductive MsgType where
  | user
  | ai
deriving DecidableEq

/-- A conversation message; `isTyping` marks the pending assistant
placeholder. -/
structure Message where
  type : MsgType
  content : Str
  isTyping : Bool
deriving DecidableEq

/-- State of the conversation store: the ordered message log and the
questions-asked counter. -/
structure ConvState where
  messages : List Message
  questionsAsked : Nat
deriving DecidableEq

/-- The fixed list of stock assistant replies. -/
def responses : List Str :=
  [str "That\x27s an interesting question! Based on what I can see and hear, let me provide you with a detailed response...",
   str "I understand your query. From the visual and audio context, here\x27s what I think would be most helpful...",
   str "Great question! Let me analyze what I\x27m observing through the camera and microphone to give you the best answer...",
   str "I can see you\x27re looking for guidance on this topic. Based on our conversation so far, here\x27s my recommendation..."]

/-- A user message as built by `addUserMessage`. -/
def mkUserMessage (content : Str) : Message :=
  { type := .user, content := content, isTyping := false }

/-- The pending assistant placeholder (`aiTypingMessage`). -/
def typingMessage : Message :=
  { type := .ai, content := [], isTyping := true }

/-- The finalized assistant reply: the stock reply picked by
`Math.floor(Math.random() * responses.length)`, with the random draw
modelled as an arbitrary natural number reduced mod the list length. -/
def stockReply (i : Nat) : Message :=
  { type := .ai, content := responses.getD (i % responses.length) [],
    isTyping := false }

/-- Delay before the pending assistant placeholder is appended. -/
def typingDelayMs : Nat := 500

/-- Further delay before the placeholder is replaced by the finalized
reply. -/
def replyDelayMs : Nat := 2000

/-- The immediate phase of `addUserMessage`: append the user message and
bump the questions counter (no emptiness check is performed here). -/
def addUserMessage (s : ConvState) (content : Str) : ConvState :=
  { messages := s.messages ++ [mkUserMessage content],
    questionsAsked := s.questionsAsked + 1 }

/-- The first delayed phase of `addUserMessage` (after `typingDelayMs`):
append the pending assistant placeholder. -/
def addTypingMessage (s : ConvState) : ConvState :=
  { s with messages := s.messages ++ [typingMessage] }

/-- The second delayed phase of `addUserMessage` (after a further
`replyDelayMs`): drop every typing placeholder and append the finalized
assistant reply chosen by draw `i`. -/
def deliverReply (s : ConvState) (i : Nat) : ConvState :=
  { s with
      messages := (s.messages.filter fun m => !m.isTyping) ++ [stockReply i] }

/-- The `Index.handleRecordingStop` submission path, projected onto the
conversation store: a transcript that is empty after trimming is dropped
(state unchanged, no reply scheduled — second component false); otherwise
the trimmed transcript is submitted through `addUserMessage`, which also
schedules the simulated reply (second component true). -/
def handleRecordingStop (s : ConvState) (transcript : Str) : ConvState × Bool :=
  if jsTrim transcript = [] then (s, false)
  else (addUserMessage s (jsTrim transcript), true)

example : (addUserMessage ⟨[], 0⟩ (str " ")).messages.length = 1 := by decide
example : (deliverReply (addTypingMessage (addUserMessage ⟨[], 0⟩ (str "hi"))) 0).messages.length = 2 := by decide

/-! ## Helper lemmas -/

/-- When the stop-command branch is not taken, `onresult` appends exactly the
new final text to the committed final transcript. -/
lemma onresult_of_not_stopGuard (s : RecState) (now : Nat) (segs : List Segment)
    (h : stopGuard s segs = false) :
    (onresult s now segs).finalTranscript = s.finalTranscript ++ newFinalOf segs := by
  unfold onresult
  rw [h]
  by_cases hc : s.continuousMode = true <;> simp [hc]

/-- The result of `jsTrim` has no leading whitespace left to drop. -/
lemma dropWhile_jsTrim (l : Str) :
    (jsTrim l).dropWhile jsWhitespace = jsTrim l := by
  obtain ⟨t, ht⟩ :
      jsTrim l <+: l.dropWhile jsWhitespace :=
    List.rdropWhile_prefix _ _
  cases hj : jsTrim l with
  | nil => rfl
  | cons c cs =>
    rw [hj] at ht
    have hid := List.dropWhile_idempotent (p := jsWhitespace) (l := l)
    rw [← ht, List.cons_append, List.dropWhile_cons] at hid
    by_cases hw : jsWhitespace c = true
    · rw [if_pos hw] at hid
      have hlen := congrArg List.length hid
      have hle : (List.dropWhile jsWhitespace (cs ++ t)).length ≤ (cs ++ t).length :=
        (List.dropWhile_suffix jsWhitespace).sublist.length_le
      rw [List.length_cons] at hlen
      omega
    · rw [List.dropWhile_cons, if_neg hw]

/-- Trimming is idempotent: the committed transcript of the stop-command
branch carries no surrounding whitespace. -/
lemma jsTrim_idem (l : Str) : jsTrim (jsTrim l) = jsTrim l := by
  show List.rdropWhile jsWhitespace ((jsTrim l).dropWhile jsWhitespace) = jsTrim l
  rw [dropWhile_jsTrim]
  exact List.rdropWhile_idempotent _ _

/-- Delivering a sequence of data fragments only extends the chunk list with
the positive-size fragments, in emission order, and touches nothing else. -/
lemma processData_eq (evs : List Bytes) : ∀ s : RecorderState,
    processData s evs = { s with chunks := s.chunks ++ evs.filter fun d => 0 < d.length } := by
  induction evs with
  | nil => intro s; simp [processData]
  | cons d rest ih =>
    intro s
    have hstep : processData s (d :: rest) = processData (ondataavailable s d) rest := by
      simp [processData]
    rw [hstep, ih]
    by_cases h : 0 < d.length <;>
      simp [ondataavailable, h, List.filter_cons]

/-! ## Claim theorems -/

/-- C1: while continuous mode is enabled and the accumulated transcript
(committed final + new final + new interim) contains the token `"stop"` in
any letter case, the result handler commits the transcript with every
case-insensitive occurrence of `"stop"` removed and surrounding whitespace
trimmed (the committed text is a fixed point of trimming), disables
continuous mode for the turn, issues the force-stop request, and the
subsequent session-end does not schedule an auto-restart. -/
theorem stop_keyword_commit_spec (s : RecState) (now : Nat) (segs : List Segment)
    (hc : s.continuousMode = true)
    (hstop : containsSub (str "stop")
        (toLowerStr (s.finalTranscript ++ newFinalOf segs ++ newInterimOf segs)) = true) :
    (onresult s now segs).finalTranscript
        = jsTrim (stripStop (s.finalTranscript ++ newFinalOf segs ++ newInterimOf segs)) ∧
    jsTrim (onresult s now segs).finalTranscript = (onresult s now segs).finalTranscript ∧
    (onresult s now segs).continuousMode = false ∧
    (onresult s now segs).stopRequests = s.stopRequests + 1 ∧
    (onend (onresult s now segs)).restartScheduled = false := by
  have hg : stopGuard s segs = true := by
    unfold stopGuard
    rw [hstop, hc]
    rfl
  refine ⟨?_, ?_, ?_, ?_, ?_⟩ <;>
    simp [onresult, hg, onend, jsTrim_idem]

/-- C1 witness: the end-to-end example of the spec, `"Hello there stop"`
spoken in continuous mode, commits `"Hello there"`. -/
theorem stop_keyword_commit_spec_witness :
    (onresult (freshPass true) 0 [⟨true, str "Hello there stop"⟩]).finalTranscript
        = str "Hello there" ∧
    (onresult (freshPass true) 0 [⟨true, str "Hello there stop"⟩]).continuousMode = false ∧
    (onend (onresult (freshPass true) 0 [⟨true, str "Hello there stop"⟩])).restartScheduled
        = false := by
  have h := stop_keyword_commit_spec (freshPass true) 0 [⟨true, str "Hello there stop"⟩]
      (by decide) (by decide)
  refine ⟨?_, h.2.2.1, h.2.2.2.2⟩
  rw [h.1]
  decide

/-- C2 counterexample: in continuous mode a single result event whose only
segment is interim and contains `"stop"` makes the handler commit text taken
from that interim segment, so the committed final transcript differs from the
concatenation of the (zero) final segments. -/
theorem final_concat_counterexample :
    (processEvents (freshPass true) [(0, [⟨false, str "please stop"⟩])]).finalTranscript
      ≠ finalsOf [(0, [⟨false, str "please stop"⟩])] := by decide

/-- C2 (amended): for every sequence of result events processed in delivery
order during which the stop-command branch never fires (in particular
whenever continuous mode is off), the committed final transcript equals the
initial committed text followed by the concatenation, in delivery order, of
exactly the segments marked final; interim segments contribute nothing. -/
theorem processEvents_final_concat (s : RecState) (evs : List (Nat × List Segment))
    (h : noStopFires s evs = true) :
    (processEvents s evs).finalTranscript = s.finalTranscript ++ finalsOf evs := by
  induction evs generalizing s with
  | nil => simp [processEvents, finalsOf]
  | cons e rest ih =>
    obtain ⟨t, segs⟩ := e
    rw [noStopFires, Bool.and_eq_true, Bool.not_eq_true'] at h
    rw [processEvents, ih _ h.2, onresult_of_not_stopGuard _ _ _ h.1]
    simp [finalsOf]

/-- C2 witness: a three-event delivery with interleaved interim segments
commits exactly the final segments, concatenated in order. -/
theorem processEvents_final_concat_witness :
    (processEvents (freshPass false)
        [(0, [⟨false, str "he"⟩]), (1, [⟨true, str "hello "⟩, ⟨false, str "wor"⟩]),
         (2, [⟨true, str "world"⟩])]).finalTranscript
      = [] ++ finalsOf
        [(0, [⟨false, str "he"⟩]), (1, [⟨true, str "hello "⟩, ⟨false, str "wor"⟩]),
         (2, [⟨true, str "world"⟩])] :=
  processEvents_final_concat (freshPass false) _ (by decide)

/-- C3: submitting text through `addUserMessage` appends the user message at
once, then (after the 500 ms delay) appends exactly one pending typing
placeholder, and (after the further 2000 ms delay) removes that placeholder
and appends exactly one finalized assistant message whose content is one of
the four stock replies. The hypothesis says the log holds no pending
placeholder beforehand, which is the steady state between submissions. -/
theorem addUserMessage_reply_spec (s : ConvState) (content : Str) (i : Nat)
    (hno : ∀ m ∈ s.messages, m.isTyping = false) :
    typingDelayMs = 500 ∧ replyDelayMs = 2000 ∧ responses.length = 4 ∧
    (addUserMessage s content).messages = s.messages ++ [mkUserMessage content] ∧
    (addTypingMessage (addUserMessage s content)).messages
        = s.messages ++ [mkUserMessage content, typingMessage] ∧
    ((addTypingMessage (addUserMessage s content)).messages.filter
        fun m => m.isTyping).length = 1 ∧
    (deliverReply (addTypingMessage (addUserMessage s content)) i).messages
        = s.messages ++ [mkUserMessage content, stockReply i] ∧
    (stockReply i).isTyping = false ∧
    (stockReply i).content ∈ responses := by
  have hnil : s.messages.filter (fun m => m.isTyping) = [] := by
    rw [List.filter_eq_nil_iff]
    intro m hm
    simp [hno m hm]
  have hself : s.messages.filter (fun m => !m.isTyping) = s.messages := by
    rw [List.filter_eq_self]
    intro m hm
    simp [hno m hm]
  refine ⟨rfl, rfl, rfl, rfl, ?_, ?_, ?_, rfl, ?_⟩
  · simp [addTypingMessage, addUserMessage]
  · simp [addTypingMessage, addUserMessage, List.filter_append, hnil,
      typingMessage, mkUserMessage]
  · simp [deliverReply, addTypingMessage, addUserMessage, List.filter_append,
      hself, typingMessage, mkUserMessage]
  · have hlt : i % responses.length < responses.length :=
      Nat.mod_lt _ (by decide)
    show responses.getD (i % responses.length) [] ∈ responses
    rw [List.getD_eq_getElem _ _ hlt]
    exact List.getElem_mem hlt

/-- C3 witness: a concrete submission into an empty log, with reply draw 2. -/
theorem addUserMessage_reply_spec_witness :
    (deliverReply (addTypingMessage (addUserMessage ⟨[], 0⟩ (str "hi"))) 2).messages
        = ([] : List Message) ++ [mkUserMessage (str "hi"), stockReply 2] ∧
    (stockReply 2).content ∈ responses :=
  ⟨(addUserMessage_reply_spec ⟨[], 0⟩ (str "hi") 2 (by simp)).2.2.2.2.2.2.1,
   (addUserMessage_reply_spec ⟨[], 0⟩ (str "hi") 2 (by simp)).2.2.2.2.2.2.2.2⟩

/-- C4 counterexample: calling `addUserMessage` itself with the text `" "`,
which is empty after trimming, is not dropped — a user message is appended
and the log changes (the emptiness guard lives in the caller
`handleRecordingStop`, not in `addUserMessage`). -/
theorem addUserMessage_empty_appends :
    jsTrim (str " ") = [] ∧
    (addUserMessage ⟨[], 0⟩ (str " ")).messages ≠ ([] : List Message) := by
  decide

/-- C4 (amended): the `handleRecordingStop` submission path drops a
transcript that is empty after trimming — the conversation store is left
unchanged and no reply is scheduled — and for a transcript non-empty after
trimming it appends exactly one user message (carrying the trimmed text)
immediately. -/
theorem handleRecordingStop_spec (s : ConvState) (t : Str) :
    (jsTrim t = [] → handleRecordingStop s t = (s, false)) ∧
    (jsTrim t ≠ [] →
      (handleRecordingStop s t).1.messages = s.messages ++ [mkUserMessage (jsTrim t)] ∧
      (handleRecordingStop s t).2 = true) := by
  constructor
  · intro h
    simp [handleRecordingStop, h]
  · intro h
    simp [handleRecordingStop, h, addUserMessage]

/-- C4 witness: the blank transcript `" "` is dropped, while `" hi "`
appends one user message with content `"hi"`. -/
theorem handleRecordingStop_spec_witness :
    handleRecordingStop ⟨[], 0⟩ (str " ") = (⟨[], 0⟩, false) ∧
    (handleRecordingStop ⟨[], 0⟩ (str " hi ")).1.messages
        = ([] : List Message) ++ [mkUserMessage (jsTrim (str " hi "))] :=
  ⟨(handleRecordingStop_spec ⟨[], 0⟩ (str " ")).1 (by decide),
   ((handleRecordingStop_spec ⟨[], 0⟩ (str " hi ")).2 (by decide)).1⟩

/-- C5: during an active continuous pass, every result event that keeps the
pass alive replaces the pending silence timeout (whatever deadline it held)
with one exactly 2000 ms from the event; when that timeout fires it issues
exactly one stop request and consumes itself, so firing again without a new
event changes nothing — the pass is force-stopped exactly once. -/
theorem silence_timer_spec (s : RecState) (now d : Nat) (segs : List Segment)
    (hc : s.continuousMode = true)
    (hg : stopGuard s segs = false)
    (hl : s.isListening = true)
    (ht : s.silenceTimer = some d) :
    silenceTimeoutMs = 2000 ∧
    (onresult s now segs).silenceTimer = some (now + silenceTimeoutMs) ∧
    (silenceFire s).stopRequests = s.stopRequests + 1 ∧
    (silenceFire s).silenceTimer = none ∧
    silenceFire (silenceFire s) = silenceFire s := by
  refine ⟨rfl, ?_, ?_, ?_, ?_⟩ <;>
    simp [onresult, silenceFire, hg, hc, ht, hl]

/-- A continuous listening pass with a pending silence timeout at 5 ms. -/
def armedPass : RecState := { freshPass true with silenceTimer := some 5 }

/-- C5 witness: a pass with a pending timeout at 5 ms re-arms to 2007 ms on
an event at 7 ms, and its timeout stops the pass exactly once. -/
theorem silence_timer_spec_witness :
    (onresult armedPass 7 [⟨true, str "hello"⟩]).silenceTimer
        = some (7 + silenceTimeoutMs) ∧
    (silenceFire armedPass).stopRequests = armedPass.stopRequests + 1 ∧
    silenceFire (silenceFire armedPass) = silenceFire armedPass :=
  ⟨(silence_timer_spec armedPass 7 5
      [⟨true, str "hello"⟩] (by decide) (by decide) (by decide) (by decide)).2.1,
   (silence_timer_spec armedPass 7 5
      [⟨true, str "hello"⟩] (by decide) (by decide) (by decide) (by decide)).2.2.1,
   (silence_timer_spec armedPass 7 5
      [⟨true, str "hello"⟩] (by decide) (by decide) (by decide) (by decide)).2.2.2.2⟩

/-- C6: from a recording state, the first `stopRecording` finalizes exactly
one blob — built once, from the chunks accumulated so far — and a second
`stopRecording` immediately after is a total (non-throwing) no-op leaving the
artifact and every other field unchanged. -/
theorem stopRecording_idem_spec (s : RecorderState)
    (hr : s.hasRecorder = true) (hrec : s.isRecording = true) :
    (stopRecording s).recordedBlob = some s.chunks ∧
    (stopRecording s).blobBuilds = s.blobBuilds + 1 ∧
    (stopRecording s).isRecording = false ∧
    stopRecording (stopRecording s) = stopRecording s := by
  refine ⟨?_, ?_, ?_, ?_⟩ <;> simp [stopRecording, onstop, hr, hrec]

/-- An active recording session that has accumulated one chunk. -/
def activeRecorder : RecorderState :=
  { idleRecorder with hasRecorder := true, isRecording := true, chunks := [[1, 2]] }

/-- C6 witness: double stop on a recording session holding one chunk. -/
theorem stopRecording_idem_spec_witness :
    (stopRecording activeRecorder).recordedBlob = some [[1, 2]] ∧
    stopRecording (stopRecording activeRecorder) = stopRecording activeRecorder :=
  ⟨(stopRecording_idem_spec activeRecorder (by decide) (by decide)).1,
   (stopRecording_idem_spec activeRecorder (by decide) (by decide)).2.2.2⟩

/-- C7: with no finalized artifact, `downloadRecording` produces no file and
sets the human-readable no-recording error; with an artifact it produces
that blob as the file and changes nothing (in particular no such error is
set). -/
theorem downloadRecording_spec (s : RecorderState) :
    (s.recordedBlob = none →
      (downloadRecording s).2 = none ∧
      (downloadRecording s).1.error = some noRecordingMsg) ∧
    (∀ b, s.recordedBlob = some b →
      (downloadRecording s).2 = some b ∧ (downloadRecording s).1 = s) := by
  constructor
  · intro h
    simp [downloadRecording, h]
  · intro b h
    simp [downloadRecording, h]

/-- A recorder state that holds a finalized artifact. -/
def finalizedRecorder : RecorderState :=
  { idleRecorder with recordedBlob := some [[3]] }

/-- C7 witness: download with no artifact yields no file plus the error;
download with an artifact yields that file. -/
theorem downloadRecording_spec_witness :
    (downloadRecording idleRecorder).2 = none ∧
    (downloadRecording idleRecorder).1.error = some noRecordingMsg ∧
    (downloadRecording finalizedRecorder).2 = some [[3]] :=
  ⟨((downloadRecording_spec idleRecorder).1 (by decide)).1,
   ((downloadRecording_spec idleRecorder).1 (by decide)).2,
   ((downloadRecording_spec finalizedRecorder).2 [[3]] (by decide)).1⟩

/-- C8: an `"aborted"` recognition error surfaces no user-visible message
(and leaves continuous mode alone); every other error kind disables
continuous mode and sets exactly one message, which is either one of the
five specific messages or the generic fallback for that kind. -/
theorem onerror_spec (s : RecState) (kind : String) :
    (kind = "aborted" →
      (onerror s kind).error = s.error ∧
      (onerror s kind).continuousMode = s.continuousMode) ∧
    (kind ≠ "aborted" →
      (onerror s kind).continuousMode = false ∧
      (onerror s kind).error = some (errorMessage kind) ∧
      (errorMessage kind ∈ fixedErrorMessages ∨
        errorMessage kind = "Speech recognition error: " ++ kind)) := by
  constructor
  · intro h
    simp [onerror, h]
  · intro h
    refine ⟨by simp [onerror, h], by simp [onerror, h], ?_⟩
    unfold errorMessage
    split_ifs <;> simp [fixedErrorMessages]

/-- C8 witness: an aborted error during a continuous pass surfaces nothing,
while a network error disables continuous mode and sets the network
message. -/
theorem onerror_spec_witness :
    (onerror (freshPass true) "aborted").error = (freshPass true).error ∧
    (onerror (freshPass true) "network").continuousMode = false ∧
    (onerror (freshPass true) "network").error = some (errorMessage "network") :=
  ⟨((onerror_spec (freshPass true) "aborted").1 (by decide)).1,
   ((onerror_spec (freshPass true) "network").2 (by decide)).1,
   ((onerror_spec (freshPass true) "network").2 (by decide)).2.1⟩

/-- C9: session end always reports `isListening = false` (clearing interim
text and the silence timer), schedules the delayed restart exactly when
continuous mode is still enabled and the stop was not manual, and when the
restart runs it clears the accumulated transcripts before starting; if the
`start()` call throws, continuous mode is disabled and the error state is
untouched (no error surfaced). -/
theorem onend_restart_spec (s : RecState) :
    (onend s).isListening = false ∧
    (onend s).interimTranscript = [] ∧
    (onend s).silenceTimer = none ∧
    (onend s).restartScheduled = (s.continuousMode && !s.isManualStop) ∧
    restartDelayMs = 1000 ∧
    (s.continuousMode = true →
      (restartFire (onend s) false).finalTranscript = [] ∧
      (restartFire (onend s) false).transcript = [] ∧
      (restartFire (onend s) false).startRequests = s.startRequests + 1 ∧
      (restartFire (onend s) true).finalTranscript = [] ∧
      (restartFire (onend s) true).transcript = [] ∧
      (restartFire (onend s) true).continuousMode = false ∧
      (restartFire (onend s) true).error = s.error) := by
  refine ⟨rfl, rfl, rfl, rfl, rfl, ?_⟩
  intro hc
  refine ⟨?_, ?_, ?_, ?_, ?_, ?_, ?_⟩ <;> simp [restartFire, onend, hc]

/-- C9 witness: ending a continuous, not manually stopped pass schedules the
restart; a failing restart disables continuous mode without surfacing an
error. -/
theorem onend_restart_spec_witness :
    (onend (freshPass true)).isListening = false ∧
    (onend (freshPass true)).restartScheduled
        = ((freshPass true).continuousMode && !(freshPass true).isManualStop) ∧
    (restartFire (onend (freshPass true)) true).continuousMode = false ∧
    (restartFire (onend (freshPass true)) true).error = (freshPass true).error :=
  ⟨(onend_restart_spec (freshPass true)).1,
   (onend_restart_spec (freshPass true)).2.2.2.1,
   ((onend_restart_spec (freshPass true)).2.2.2.2.2 (by decide)).2.2.2.2.2.1,
   ((onend_restart_spec (freshPass true)).2.2.2.2.2 (by decide)).2.2.2.2.2.2⟩

/-- C10: starting a recording resets the chunk list, a data event appends its
fragment exactly when its size is strictly positive, and the blob finalized
at stop is built from exactly the positive-size fragments in emission order —
zero-size fragments never appear in the artifact. -/
theorem dataavailable_filter_spec (s : RecorderState) (evs : List Bytes) (d : Bytes)
    (h : s.isRecording = false) :
    ((ondataavailable (startRecording s) d).chunks
        = (startRecording s).chunks ++ [d] ↔ 0 < d.length) ∧
    (processData (startRecording s) evs).chunks
        = evs.filter (fun b => 0 < b.length) ∧
    (stopRecording (processData (startRecording s) evs)).recordedBlob
        = some (evs.filter fun b => 0 < b.length) := by
  have hs : startRecording s
      = { s with hasRecorder := true, chunks := [], isRecording := true,
                 error := none, durationTimerActive := true } := by
    simp [startRecording, h]
  refine ⟨?_, ?_, ?_⟩
  · by_cases hd : 0 < d.length <;> simp [ondataavailable, hd, hs]
  · rw [processData_eq, hs]
    simp
  · rw [processData_eq, hs]
    simp [stopRecording, onstop]

/-- C10 witness: fragments of sizes 2, 0, 1 yield an artifact holding
exactly the two positive-size fragments, in order. -/
theorem dataavailable_filter_spec_witness :
    (stopRecording (processData (startRecording idleRecorder)
        [[1, 2], [], [3]])).recordedBlob = some [[1, 2], [3]] := by
  have h := (dataavailable_filter_spec idleRecorder [[1, 2], [], [3]] []
      (by decide)).2.2
  rw [h]
  decide
